import Mathlib

/-!
Shallow embedding of the BlackScholes repository
(`BS_streamlit_app.py`, `equities_options_toolkit.py`).

Real-valued pricing code is embedded over `ℝ` (Python floats are modelled as
real numbers; partial operations such as division by zero, `log` of a
non-positive number and `sqrt` of a negative number are totalized the way
Mathlib totalizes them, standing in for the NaN/inf values NumPy produces).
The toolkit's rational-arithmetic helpers are embedded over `ℚ` so that
concrete scenarios can be settled by evaluation.
-/

open MeasureTheory

/-- The standard normal cumulative distribution function, the mathematical
function computed by `scipy.stats.norm.cdf`:
`Φ x = (∫ t ≤ x, exp (-t²/2)) / √(2π)`. -/
noncomputable def normCdf (x : ℝ) : ℝ :=
  (∫ t in Set.Iic x, Real.exp (-(1 / 2 : ℝ) * t ^ 2)) / Real.sqrt (2 * Real.pi)

lemma gaussian_kernel_integrable :
    Integrable (fun t : ℝ => Real.exp (-(1 / 2 : ℝ) * t ^ 2)) :=
  integrable_exp_neg_mul_sq (by norm_num)

lemma gaussian_kernel_total :
    (∫ t : ℝ, Real.exp (-(1 / 2 : ℝ) * t ^ 2)) = Real.sqrt (2 * Real.pi) := by
  rw [integral_gaussian]
  congr 1
  rw [div_div_eq_mul_div]
  ring

lemma gaussian_kernel_Iic_neg (x : ℝ) :
    (∫ t in Set.Iic (-x), Real.exp (-(1 / 2 : ℝ) * t ^ 2)) =
      ∫ t in Set.Ioi x, Real.exp (-(1 / 2 : ℝ) * t ^ 2) := by
  have h := integral_comp_neg_Iic (-x) (fun t : ℝ => Real.exp (-(1 / 2 : ℝ) * t ^ 2))
  simpa using h

lemma gaussian_kernel_split (x : ℝ) :
    (∫ t in Set.Iic x, Real.exp (-(1 / 2 : ℝ) * t ^ 2)) +
      (∫ t in Set.Ioi x, Real.exp (-(1 / 2 : ℝ) * t ^ 2)) = Real.sqrt (2 * Real.pi) := by
  rw [← gaussian_kernel_total]
  exact intervalIntegral.integral_Iic_add_Ioi
    gaussian_kernel_integrable.integrableOn gaussian_kernel_integrable.integrableOn

/-- Reflection identity of the normal CDF: `Φ (-x) = 1 - Φ x`. -/
lemma normCdf_neg (x : ℝ) : normCdf (-x) = 1 - normCdf x := by
  have hpos : 0 < Real.sqrt (2 * Real.pi) :=
    Real.sqrt_pos.mpr (by positivity)
  have hsplit := gaussian_kernel_split x
  unfold normCdf
  rw [gaussian_kernel_Iic_neg]
  have hIoi : (∫ t in Set.Ioi x, Real.exp (-(1 / 2 : ℝ) * t ^ 2)) =
      Real.sqrt (2 * Real.pi) - ∫ t in Set.Iic x, Real.exp (-(1 / 2 : ℝ) * t ^ 2) := by
    linarith
  rw [hIoi, sub_div, div_self hpos.ne']

/-- The tuple returned by `BlackScholes.calculate_prices` (the method also
stores `call_gamma`/`put_gamma` as attributes, but returns exactly these four
values; no claim concerns the gammas). -/
structure PricingResult where
  call_price : ℝ
  put_price : ℝ
  call_delta : ℝ
  put_delta : ℝ

/-- The five attributes of a `BlackScholes` instance, as stored after
`__init__` ran (`time_to_maturity` is stored in years). -/
structure BlackScholes where
  time_to_maturity : ℝ
  strike : ℝ
  current_price : ℝ
  volatility : ℝ
  interest_rate : ℝ

/-- `BlackScholes.__init__` (BS_streamlit_app.py:71-83): takes
`time_to_maturity` in days and stores `time_to_maturity / 365.0`
("Convert days to years"); the other four arguments are stored unchanged. -/
noncomputable def BlackScholes.ofDays (time_to_maturity strike current_price volatility
    interest_rate : ℝ) : BlackScholes :=
  { time_to_maturity := time_to_maturity / 365
    strike := strike
    current_price := current_price
    volatility := volatility
    interest_rate := interest_rate }

/-- Local variable `d1` of `calculate_prices` (BS_streamlit_app.py:94-99). -/
noncomputable def BlackScholes.d1 (bs : BlackScholes) : ℝ :=
  (Real.log (bs.current_price / bs.strike) +
      (bs.interest_rate + 0.5 * bs.volatility ^ 2) * bs.time_to_maturity) /
    (bs.volatility * Real.sqrt bs.time_to_maturity)

/-- Local variable `d2` of `calculate_prices` (BS_streamlit_app.py:100). -/
noncomputable def BlackScholes.d2 (bs : BlackScholes) : ℝ :=
  bs.d1 - bs.volatility * Real.sqrt bs.time_to_maturity

/-- `BlackScholes.calculate_prices` (BS_streamlit_app.py:85-125).  The Python
method performs no input validation: it evaluates the closed form directly on
whatever the attributes hold (non-positive volatility or maturity makes the
float code divide by zero and silently yields NaN/inf values; the embedding
totalizes those partial operations). -/
noncomputable def BlackScholes.calculate_prices (bs : BlackScholes) : PricingResult :=
  { call_price := bs.current_price * normCdf bs.d1 -
      bs.strike * Real.exp (-(bs.interest_rate * bs.time_to_maturity)) * normCdf bs.d2
    put_price := bs.strike * Real.exp (-(bs.interest_rate * bs.time_to_maturity)) *
        normCdf (-bs.d2) - bs.current_price * normCdf (-bs.d1)
    call_delta := normCdf bs.d1
    put_delta := 1 - normCdf bs.d1 }

/-! ### Spec-side Black-Scholes closed form (section 4.1 of the spec) -/

/-- Spec formula `d1 = (ln(spot/strike) + (rate + 0.5·vol²)·T) / (vol·√T)`. -/
noncomputable def d1_spec (spot strike vol rate T : ℝ) : ℝ :=
  (Real.log (spot / strike) + (rate + 0.5 * vol ^ 2) * T) / (vol * Real.sqrt T)

/-- Spec formula `d2 = d1 − vol·√T`. -/
noncomputable def d2_spec (spot strike vol rate T : ℝ) : ℝ :=
  d1_spec spot strike vol rate T - vol * Real.sqrt T

/-- Spec formula `call = spot·Φ(d1) − strike·e^(−rate·T)·Φ(d2)`. -/
noncomputable def call_spec (spot strike vol rate T : ℝ) : ℝ :=
  spot * normCdf (d1_spec spot strike vol rate T) -
    strike * Real.exp (-(rate * T)) * normCdf (d2_spec spot strike vol rate T)

/-- Spec formula `put = strike·e^(−rate·T)·Φ(−d2) − spot·Φ(−d1)`. -/
noncomputable def put_spec (spot strike vol rate T : ℝ) : ℝ :=
  strike * Real.exp (-(rate * T)) * normCdf (-(d2_spec spot strike vol rate T)) -
    spot * normCdf (-(d1_spec spot strike vol rate T))

/-! ### The sensitivity grid (`plot_heatmap`, BS_streamlit_app.py:233-344) -/

/-- The `bs_temp` instance `plot_heatmap` builds for one grid cell
(BS_streamlit_app.py:273-279): it passes `bs_model.time_to_maturity` — an
attribute that `__init__` already converted to years — back into the
constructor, which divides by 365 again. -/
noncomputable def heatmap_cell_model (bs_model : BlackScholes) (strike spot vol : ℝ) :
    BlackScholes :=
  BlackScholes.ofDays bs_model.time_to_maturity strike spot vol bs_model.interest_rate

/-- The `initial_bs` instance `plot_heatmap` builds for the P&L reference
(BS_streamlit_app.py:261-267); the same re-conversion of
`bs_model.time_to_maturity` happens here. -/
noncomputable def heatmap_initial_model (bs_model : BlackScholes) (strike : ℝ) :
    BlackScholes :=
  BlackScholes.ofDays bs_model.time_to_maturity strike bs_model.current_price
    bs_model.volatility bs_model.interest_rate

/-- Entry `call_matrix[i, j]` of `plot_heatmap` (BS_streamlit_app.py:271-289):
row `i` indexes `vol_range`, column `j` indexes `spot_range`. -/
noncomputable def plot_heatmap_call (bs_model : BlackScholes) (strike : ℝ)
    (spot_range vol_range : List ℝ) (position_units : ℕ) (viz_type : String)
    (i j : ℕ) : ℝ :=
  let vol := vol_range.getD i 0
  let spot := spot_range.getD j 0
  let call_price := (heatmap_cell_model bs_model strike spot vol).calculate_prices.call_price
  let initial_call := (heatmap_initial_model bs_model strike).calculate_prices.call_price
  if viz_type = "Position P&L" then
    (call_price - initial_call) * position_units * 100
  else
    call_price

/-- Entry `put_matrix[i, j]` of `plot_heatmap` (BS_streamlit_app.py:271-289). -/
noncomputable def plot_heatmap_put (bs_model : BlackScholes) (strike : ℝ)
    (spot_range vol_range : List ℝ) (position_units : ℕ) (viz_type : String)
    (i j : ℕ) : ℝ :=
  let vol := vol_range.getD i 0
  let spot := spot_range.getD j 0
  let put_price := (heatmap_cell_model bs_model strike spot vol).calculate_prices.put_price
  let initial_put := (heatmap_initial_model bs_model strike).calculate_prices.put_price
  if viz_type = "Position P&L" then
    (put_price - initial_put) * position_units * 100
  else
    put_price

/-! ### Sidebar position sizing (BS_streamlit_app.py:196-201) -/

/-- Python `int()` applied to a rational value: truncation toward zero. -/
def pyInt (x : ℚ) : ℤ :=
  if 0 ≤ x then ⌊x⌋ else -⌊-x⌋

/-- The sidebar's recommended contract count (BS_streamlit_app.py:196-201):
`current_option_value = min(initial_call, initial_put)`; when that is
strictly positive the count is `int(kelly_allocation / (current_option_value
* 100))`, otherwise `0`. -/
def max_contracts (kelly_allocation initial_call initial_put : ℚ) : ℤ :=
  let current_option_value := min initial_call initial_put
  if 0 < current_option_value then
    pyInt (kelly_allocation / (current_option_value * 100))
  else
    0

/-! ### The options toolkit (`equities_options_toolkit.py`), over `ℚ` -/

/-- One row of an options-chain side as used by
`calculate_weighted_cpivs`: the `impliedVolatility`, `openInterest` and
`volume` columns. -/
structure OptionRow where
  impliedVolatility : ℚ
  openInterest : ℚ
  volume : ℚ
deriving DecidableEq

/-- The weighted-average implied volatility one side of
`calculate_weighted_cpivs` computes (equities_options_toolkit.py:58,62):
`(Σ iv·(oi+volume)) / (Σ (oi+volume))`.  The pandas code has no guard: a zero
weight sum divides by zero and silently yields NaN (totalized to `0` here). -/
def weighted_avg_iv (rows : List OptionRow) : ℚ :=
  ((rows.map fun r => r.impliedVolatility * (r.openInterest + r.volume)).sum) /
    ((rows.map fun r => r.openInterest + r.volume).sum)

/-- `calculate_weighted_cpivs` (equities_options_toolkit.py:43-66), with the
fetched chain supplied as data: weighted call IV minus weighted put IV. -/
def calculate_weighted_cpivs (calls puts : List OptionRow) : ℚ :=
  weighted_avg_iv calls - weighted_avg_iv puts

/-- One input entry of `get_CPIVbyExpiration`: a ticker together with the
outcome of fetching its options chain (`none` models `get_options_chain`
raising, the only way the `try` body can fail). -/
structure CPIVEntry where
  ticker : String
  chain : Option (List OptionRow × List OptionRow)

/-- One element of the list `get_CPIVbyExpiration` returns. -/
structure CPIVResult where
  ticker : String
  expiration : String
  cpiv : ℚ
deriving DecidableEq

/-- The successfully computed per-ticker results of `get_CPIVbyExpiration`
(equities_options_toolkit.py:100-107), in input order: entries whose chain
fetch raised are skipped (their error is printed, not re-raised). -/
def cpiv_successes (tickers : List CPIVEntry) (expiration : String) : List CPIVResult :=
  tickers.filterMap fun e =>
    e.chain.map fun chain_data =>
      { ticker := e.ticker
        expiration := expiration
        cpiv := calculate_weighted_cpivs chain_data.1 chain_data.2 }

/-- `get_CPIVbyExpiration` (equities_options_toolkit.py:94-116): collect the
per-ticker results, then `sorted(..., key=cpiv, reverse=True)` — a stable
descending sort, modelled by insertion sort with the relation
`b.cpiv ≤ a.cpiv` (Python's sort is stable and `reverse=True` keeps equal
keys in input order). -/
def get_CPIVbyExpiration (tickers : List CPIVEntry) (expiration : String) :
    List CPIVResult :=
  List.insertionSort (fun a b => b.cpiv ≤ a.cpiv) (cpiv_successes tickers expiration)

/-! ### Allocation heuristics (`equities_options_toolkit.py:118-154, 233-239`) -/

/-- The tier table of `vix_dynamic_allocation` as the spec states it:
25% below 15, 30% on [15,20), 35% on [20,30), 40% on [30,40), 50% at 40
and above. -/
def tier_percentage (v : ℚ) : ℚ :=
  if v < 15 then 25 / 100
  else if v < 20 then 30 / 100
  else if v < 30 then 35 / 100
  else if v < 40 then 40 / 100
  else 50 / 100

/-- The allocation computation of `vix_dynamic_allocation`
(equities_options_toolkit.py:140-154), with the fetched (or fallback) VIX
level supplied as the argument `current_vix`; the `elif` guards are embedded
verbatim. -/
def vix_dynamic_allocation (balance current_vix : ℚ) : ℚ :=
  let allocation_percentage : ℚ :=
    if current_vix < 15 then 25 / 100
    else if 15 ≤ current_vix ∧ current_vix < 20 then 30 / 100
    else if 20 ≤ current_vix ∧ current_vix < 30 then 35 / 100
    else if 30 ≤ current_vix ∧ current_vix < 40 then 40 / 100
    else 50 / 100
  balance * allocation_percentage

/-- `kelly_criterion_allocation` (equities_options_toolkit.py:233-239):
`f = r * (dte / 365) * (pop / (1 - pop))`.  When `1 - pop = 0` the Python
float division raises `ZeroDivisionError`; that raised error is modelled as
`none`. -/
def kelly_criterion_allocation (r dte pop : ℚ) : Option ℚ :=
  if 1 - pop = 0 then none
  else some (r * (dte / 365) * (pop / (1 - pop)))

/-- With zero volatility the divisor of `d1` is zero, so totalized division
yields `d1 = 0` (the float code yields NaN there). -/
lemma d1_of_vol_zero (bs : BlackScholes) (h : bs.volatility = 0) : bs.d1 = 0 := by
  simp [BlackScholes.d1, h]

/-- With zero volatility `d2 = d1 - 0 = 0` as well. -/
lemma d2_of_vol_zero (bs : BlackScholes) (h : bs.volatility = 0) : bs.d2 = 0 := by
  simp [BlackScholes.d2, d1_of_vol_zero bs h, h]

/-! ### Claim theorems: pricing engine -/

/-- Claim C2: for every valid input (time, strike, spot, volatility all
positive), `calculate_prices` returns exactly the Black-Scholes closed form,
with `T` the maturity converted from days to years. -/
theorem C2_pricing_closed_form (t k s v r : ℝ)
    (ht : 0 < t) (hk : 0 < k) (hs : 0 < s) (hv : 0 < v) :
    ((BlackScholes.ofDays t k s v r).calculate_prices.call_price
        = call_spec s k v r (t / 365))
    ∧ ((BlackScholes.ofDays t k s v r).calculate_prices.put_price
        = put_spec s k v r (t / 365))
    ∧ ((BlackScholes.ofDays t k s v r).calculate_prices.call_delta
        = normCdf (d1_spec s k v r (t / 365)))
    ∧ ((BlackScholes.ofDays t k s v r).calculate_prices.put_delta
        = 1 - normCdf (d1_spec s k v r (t / 365))) := by
  refine ⟨?_, ?_, ?_, ?_⟩ <;>
    simp [BlackScholes.calculate_prices, BlackScholes.ofDays, BlackScholes.d1,
      BlackScholes.d2, call_spec, put_spec, d1_spec, d2_spec]

/-- Witness for C2 at (t, k, s, v, r) = (365, 100, 100, 1/5, 1/20). -/
theorem C2_pricing_closed_form_witness :
    ((0 : ℝ) < 365 ∧ (0 : ℝ) < 100 ∧ (0 : ℝ) < 100 ∧ (0 : ℝ) < 1 / 5)
    ∧ (BlackScholes.ofDays 365 100 100 (1 / 5) (1 / 20)).calculate_prices.call_price
        = call_spec 100 100 (1 / 5) (1 / 20) (365 / 365) :=
  ⟨⟨by norm_num, by norm_num, by norm_num, by norm_num⟩,
    (C2_pricing_closed_form 365 100 100 (1 / 5) (1 / 20)
      (by norm_num) (by norm_num) (by norm_num) (by norm_num)).1⟩

/-- Claim C6: put-call parity — for every valid parameter set the computed
prices satisfy `call - put = spot - strike * exp (-(rate * T))` exactly
(the real-valued embedding needs no floating-point tolerance). -/
theorem C6_put_call_parity (bs : BlackScholes)
    (hT : 0 < bs.time_to_maturity) (hK : 0 < bs.strike)
    (hS : 0 < bs.current_price) (hV : 0 < bs.volatility) :
    bs.calculate_prices.call_price - bs.calculate_prices.put_price
      = bs.current_price -
        bs.strike * Real.exp (-(bs.interest_rate * bs.time_to_maturity)) := by
  simp only [BlackScholes.calculate_prices]
  rw [normCdf_neg bs.d2, normCdf_neg bs.d1]
  ring

/-- Witness for C6 at the baseline (365 days, strike 100, spot 100,
volatility 1/5, rate 1/20). -/
theorem C6_put_call_parity_witness :
    (0 < (BlackScholes.ofDays 365 100 100 (1 / 5) (1 / 20)).time_to_maturity
      ∧ 0 < (BlackScholes.ofDays 365 100 100 (1 / 5) (1 / 20)).strike
      ∧ 0 < (BlackScholes.ofDays 365 100 100 (1 / 5) (1 / 20)).current_price
      ∧ 0 < (BlackScholes.ofDays 365 100 100 (1 / 5) (1 / 20)).volatility)
    ∧ (BlackScholes.ofDays 365 100 100 (1 / 5) (1 / 20)).calculate_prices.call_price
        - (BlackScholes.ofDays 365 100 100 (1 / 5) (1 / 20)).calculate_prices.put_price
      = (BlackScholes.ofDays 365 100 100 (1 / 5) (1 / 20)).current_price
        - (BlackScholes.ofDays 365 100 100 (1 / 5) (1 / 20)).strike *
          Real.exp (-((BlackScholes.ofDays 365 100 100 (1 / 5) (1 / 20)).interest_rate *
            (BlackScholes.ofDays 365 100 100 (1 / 5) (1 / 20)).time_to_maturity)) :=
  ⟨⟨by norm_num [BlackScholes.ofDays], by norm_num [BlackScholes.ofDays],
    by norm_num [BlackScholes.ofDays], by norm_num [BlackScholes.ofDays]⟩,
    C6_put_call_parity _ (by norm_num [BlackScholes.ofDays])
      (by norm_num [BlackScholes.ofDays]) (by norm_num [BlackScholes.ofDays])
      (by norm_num [BlackScholes.ofDays])⟩

/-- Claim C3 (amended): `calculate_prices` performs no input validation — the
closed form is evaluated unconditionally.  With volatility 0 the divisor
`volatility * sqrt(T)` is zero, so `d1 = d2 = 0` under totalized division
(the float code silently produces NaN there instead of raising), and the
method still returns numeric prices. -/
theorem C3_no_validation_silent_result (t k s r : ℝ) :
    (BlackScholes.ofDays t k s 0 r).calculate_prices.call_price
        = (s - k * Real.exp (-(r * (t / 365)))) * normCdf 0
    ∧ (BlackScholes.ofDays t k s 0 r).calculate_prices.put_price
        = (k * Real.exp (-(r * (t / 365))) - s) * normCdf 0 := by
  have h0 : (BlackScholes.ofDays t k s 0 r).volatility = 0 := rfl
  have hd1 := d1_of_vol_zero _ h0
  have hd2 := d2_of_vol_zero _ h0
  refine ⟨?_, ?_⟩ <;>
    · simp only [BlackScholes.calculate_prices, hd1, hd2, neg_zero]
      simp [BlackScholes.ofDays]
      ring_nf

/-- Counterexample to claim C3 as stated: at the invalid input
volatility = 0 (with spot = strike = 100, rate 0, 365 days) the pricing
operation does not fail with any error — it silently returns the numeric
result call = put = 0. -/
theorem C3_invalid_volatility_not_rejected :
    (BlackScholes.ofDays 365 100 100 0 0).calculate_prices.call_price = 0
    ∧ (BlackScholes.ofDays 365 100 100 0 0).calculate_prices.put_price = 0 := by
  have h0 : (BlackScholes.ofDays 365 100 100 0 0).volatility = 0 := rfl
  have hd1 := d1_of_vol_zero _ h0
  have hd2 := d2_of_vol_zero _ h0
  refine ⟨?_, ?_⟩ <;>
    · simp only [BlackScholes.calculate_prices, hd1, hd2, neg_zero]
      simp [BlackScholes.ofDays]

/-- Claim C1 (code bug witness): `plot_heatmap` passes the already-converted
`bs_model.time_to_maturity` back through the constructor, so with a baseline
of 365 days (stored maturity 1 year) every grid cell — here spot 110,
volatility 3/10 — is priced with stored maturity 1/365 years, not the
baseline's 1 year; the RawPrice cell is exactly that mis-timed evaluation. -/
theorem C1_heatmap_time_double_conversion :
    (BlackScholes.ofDays 365 100 100 (1 / 5) (1 / 20)).time_to_maturity = 1
    ∧ (heatmap_cell_model (BlackScholes.ofDays 365 100 100 (1 / 5) (1 / 20))
        100 110 (3 / 10)).time_to_maturity = 1 / 365
    ∧ plot_heatmap_call (BlackScholes.ofDays 365 100 100 (1 / 5) (1 / 20))
        100 [110] [(3 / 10 : ℝ)] 1 "Option Prices" 0 0
      = (heatmap_cell_model (BlackScholes.ofDays 365 100 100 (1 / 5) (1 / 20))
          100 110 (3 / 10)).calculate_prices.call_price
    ∧ ((1 : ℝ) / 365) ≠ 1 := by
  refine ⟨by norm_num [BlackScholes.ofDays],
    by norm_num [heatmap_cell_model, BlackScholes.ofDays], ?_, by norm_num⟩
  simp [plot_heatmap_call]

/-! ### Claim theorems: sensitivity grid -/

/-- Claim C7: in Position P&L mode every cell of both matrices is
`(evaluated price − initial price) × position_units × 100`, and the cell at
the grid point whose spot and volatility equal the baseline's own is exactly
`0` for both the call and the put matrix. -/
theorem C7_position_pnl (bs : BlackScholes) (strike : ℝ)
    (spot_range vol_range : List ℝ) (units i j : ℕ)
    (hT : 0 < bs.time_to_maturity) (hK : 0 < bs.strike)
    (hS : 0 < bs.current_price) (hV : 0 < bs.volatility) (hU : 1 ≤ units) :
    (plot_heatmap_call bs strike spot_range vol_range units "Position P&L" i j
        = ((heatmap_cell_model bs strike (spot_range.getD j 0)
              (vol_range.getD i 0)).calculate_prices.call_price
            - (heatmap_initial_model bs strike).calculate_prices.call_price)
          * units * 100)
    ∧ (plot_heatmap_put bs strike spot_range vol_range units "Position P&L" i j
        = ((heatmap_cell_model bs strike (spot_range.getD j 0)
              (vol_range.getD i 0)).calculate_prices.put_price
            - (heatmap_initial_model bs strike).calculate_prices.put_price)
          * units * 100)
    ∧ (spot_range.getD j 0 = bs.current_price → vol_range.getD i 0 = bs.volatility →
        plot_heatmap_call bs strike spot_range vol_range units "Position P&L" i j = 0
        ∧ plot_heatmap_put bs strike spot_range vol_range units "Position P&L" i j = 0) := by
  have hcall : plot_heatmap_call bs strike spot_range vol_range units "Position P&L" i j
      = ((heatmap_cell_model bs strike (spot_range.getD j 0)
            (vol_range.getD i 0)).calculate_prices.call_price
          - (heatmap_initial_model bs strike).calculate_prices.call_price)
        * units * 100 := by
    simp [plot_heatmap_call]
  have hput : plot_heatmap_put bs strike spot_range vol_range units "Position P&L" i j
      = ((heatmap_cell_model bs strike (spot_range.getD j 0)
            (vol_range.getD i 0)).calculate_prices.put_price
          - (heatmap_initial_model bs strike).calculate_prices.put_price)
        * units * 100 := by
    simp [plot_heatmap_put]
  refine ⟨hcall, hput, fun h1 h2 => ?_⟩
  have hcell : heatmap_cell_model bs strike (spot_range.getD j 0) (vol_range.getD i 0)
      = heatmap_initial_model bs strike := by
    rw [h1, h2]; rfl
  constructor
  · rw [hcall, hcell, sub_self, zero_mul, zero_mul]
  · rw [hput, hcell, sub_self, zero_mul, zero_mul]

/-- Witness for C7: baseline (365 days, 100, 100, 1/5, 1/20), axes `[100]`
and `[1/5]`, one contract; the (0,0) cell sits at the baseline point and
both P&L matrices are zero there. -/
theorem C7_position_pnl_witness :
    (0 < (BlackScholes.ofDays 365 100 100 (1 / 5) (1 / 20)).time_to_maturity
      ∧ (1 : ℕ) ≤ 1)
    ∧ plot_heatmap_call (BlackScholes.ofDays 365 100 100 (1 / 5) (1 / 20)) 100
        [(100 : ℝ)] [(1 / 5 : ℝ)] 1 "Position P&L" 0 0 = 0
    ∧ plot_heatmap_put (BlackScholes.ofDays 365 100 100 (1 / 5) (1 / 20)) 100
        [(100 : ℝ)] [(1 / 5 : ℝ)] 1 "Position P&L" 0 0 = 0 := by
  have h := (C7_position_pnl (BlackScholes.ofDays 365 100 100 (1 / 5) (1 / 20)) 100
      [(100 : ℝ)] [(1 / 5 : ℝ)] 1 0 0
      (by norm_num [BlackScholes.ofDays]) (by norm_num [BlackScholes.ofDays])
      (by norm_num [BlackScholes.ofDays]) (by norm_num [BlackScholes.ofDays])
      (le_refl 1)).2.2 (by simp [BlackScholes.ofDays]) (by simp [BlackScholes.ofDays])
  exact ⟨⟨by norm_num [BlackScholes.ofDays], le_refl 1⟩, h.1, h.2⟩

/-! ### Claim theorems: volatility-skew analytics -/

/-- Claim C4 (amended): the weighted-average computation has no guard — cpiv
is always the difference of the two unguarded weighted averages, and a zero
weight sum makes the totalized division return `0` silently (the pandas code
silently yields NaN there); no error value exists. -/
theorem C4_weighted_avg_no_guard :
    (∀ calls puts : List OptionRow,
        calculate_weighted_cpivs calls puts
          = weighted_avg_iv calls - weighted_avg_iv puts)
    ∧ (∀ rows : List OptionRow,
        ((rows.map fun r => r.openInterest + r.volume).sum = 0) →
          weighted_avg_iv rows = 0) := by
  refine ⟨fun _ _ => rfl, fun rows h => ?_⟩
  unfold weighted_avg_iv
  rw [h, div_zero]

/-- Witness for C4 (amended) on a one-row chain whose open interest and
volume are both zero. -/
theorem C4_weighted_avg_no_guard_witness :
    ((([⟨1 / 2, 0, 0⟩] : List OptionRow).map fun r => r.openInterest + r.volume).sum = 0)
    ∧ weighted_avg_iv [⟨1 / 2, 0, 0⟩] = 0 :=
  ⟨by simp, C4_weighted_avg_no_guard.2 _ (by simp)⟩

/-- Counterexample to claim C4 as stated: on an empty row list and on a
zero-weight row list the computation does not fail with `EmptyOrZeroWeight` —
it silently returns the value 0 (NaN in the float code). -/
theorem C4_zero_weight_silently_zero :
    weighted_avg_iv ([] : List OptionRow) = 0
    ∧ weighted_avg_iv [⟨1 / 2, 0, 0⟩] = 0
    ∧ calculate_weighted_cpivs [⟨1 / 2, 0, 0⟩] ([] : List OptionRow) = 0 := by
  refine ⟨by simp [weighted_avg_iv], by simp [weighted_avg_iv],
    by simp [calculate_weighted_cpivs, weighted_avg_iv]⟩

/-- Chain for ticker A in the C5 scenario: nonzero weights, weighted call IV
1/2, weighted put IV 3/10, so cpiv = 1/5. -/
def chainA : List OptionRow × List OptionRow :=
  ([⟨1 / 2, 1, 0⟩], [⟨3 / 10, 1, 0⟩])

/-- Chain for ticker B in the C5 scenario: all weights zero on both sides. -/
def chainB : List OptionRow × List OptionRow :=
  ([⟨1 / 2, 0, 0⟩], [⟨2 / 5, 0, 0⟩])

/-- The successes of the C5 scenario input: both entries succeed (B's chain
has zero weights, but the computation of its cpiv raises nothing — it just
divides by zero). -/
lemma cpiv_successes_scenario :
    cpiv_successes [⟨"A", some chainA⟩, ⟨"B", some chainB⟩] "e1"
      = [⟨"A", "e1", 1 / 5⟩, ⟨"B", "e1", 0⟩] := by
  norm_num [cpiv_successes, chainA, chainB, calculate_weighted_cpivs, weighted_avg_iv,
    List.filterMap_cons]

/-- The C5 scenario output: both results, A's first. -/
lemma rank_scenario_eq :
    get_CPIVbyExpiration [⟨"A", some chainA⟩, ⟨"B", some chainB⟩] "e1"
      = [⟨"A", "e1", 1 / 5⟩, ⟨"B", "e1", 0⟩] := by
  rw [get_CPIVbyExpiration, cpiv_successes_scenario]
  norm_num [List.insertionSort, List.orderedInsert]

instance : IsTotal CPIVResult (fun a b => b.cpiv ≤ a.cpiv) :=
  ⟨fun a b => le_total b.cpiv a.cpiv⟩

instance : IsTrans CPIVResult (fun a b => b.cpiv ≤ a.cpiv) :=
  ⟨fun _ _ _ h1 h2 => le_trans h2 h1⟩

/-- Claim C5 (amended): `get_CPIVbyExpiration` skips exactly the entries
whose chain fetch raised, returns the rest sorted descending by cpiv, and a
pair already in descending-or-tied order in the input keeps its relative
order (stability).  However, an entry whose chain merely has zero weights
does not fail: its cpiv is silently computed (NaN in floats, 0 here) and the
entry is included, so the scenario `[A, B_with_zero_weights]` returns two
results, not one. -/
theorem C5_rank_skips_failures_sorted_stable :
    (∀ (entries : List CPIVEntry) (expiration : String),
        List.Perm (get_CPIVbyExpiration entries expiration)
          (cpiv_successes entries expiration))
    ∧ (∀ (entries : List CPIVEntry) (expiration : String),
        List.Sorted (fun a b : CPIVResult => b.cpiv ≤ a.cpiv)
          (get_CPIVbyExpiration entries expiration))
    ∧ (∀ (entries : List CPIVEntry) (expiration : String) (a b : CPIVResult),
        b.cpiv ≤ a.cpiv →
        List.Sublist [a, b] (cpiv_successes entries expiration) →
        List.Sublist [a, b] (get_CPIVbyExpiration entries expiration))
    ∧ get_CPIVbyExpiration [⟨"A", some chainA⟩, ⟨"B", some chainB⟩] "e1"
        = [⟨"A", "e1", 1 / 5⟩, ⟨"B", "e1", 0⟩] := by
  refine ⟨fun entries x => List.perm_insertionSort _ _,
    fun entries x => List.sorted_insertionSort _ _,
    fun entries x a b hab hsub => List.pair_sublist_insertionSort hab hsub,
    rank_scenario_eq⟩

/-- Witness for C5 (amended): the stability conjunct applied to the two
concrete scenario results inside the concrete scenario input. -/
theorem C5_rank_skips_failures_sorted_stable_witness :
    ((0 : ℚ) ≤ 1 / 5
      ∧ List.Sublist [(⟨"A", "e1", 1 / 5⟩ : CPIVResult), ⟨"B", "e1", 0⟩]
          (cpiv_successes [⟨"A", some chainA⟩, ⟨"B", some chainB⟩] "e1"))
    ∧ List.Sublist [(⟨"A", "e1", 1 / 5⟩ : CPIVResult), ⟨"B", "e1", 0⟩]
        (get_CPIVbyExpiration [⟨"A", some chainA⟩, ⟨"B", some chainB⟩] "e1") :=
  ⟨⟨by norm_num, by rw [cpiv_successes_scenario]⟩,
    C5_rank_skips_failures_sorted_stable.2.2.1 _ _ _ _ (by norm_num)
      (by rw [cpiv_successes_scenario])⟩

/-- Counterexample to claim C5 as stated: the scenario input
`[A, B_with_zero_weights]` yields two results, and B's result is present —
the zero-weight entry is not skipped. -/
theorem C5_zero_weight_entry_not_skipped :
    (get_CPIVbyExpiration [⟨"A", some chainA⟩, ⟨"B", some chainB⟩] "e1").length = 2
    ∧ (⟨"B", "e1", 0⟩ : CPIVResult)
        ∈ get_CPIVbyExpiration [⟨"A", some chainA⟩, ⟨"B", some chainB⟩] "e1" := by
  rw [rank_scenario_eq]
  exact ⟨rfl, by simp⟩

/-! ### Claim theorems: allocation heuristics -/

/-- The tier table is monotone: a higher volatility index never selects a
smaller percentage. -/
lemma tier_percentage_mono {v w : ℚ} (hvw : v ≤ w) :
    tier_percentage v ≤ tier_percentage w := by
  unfold tier_percentage
  split_ifs <;> linarith

/-- Claim C8: `vix_dynamic_allocation` returns balance times the tier
percentage (25% below 15, 30% on [15,20), 35% on [20,30), 40% on [30,40),
50% from 40 up), is monotone non-decreasing in the volatility index for a
fixed positive balance, and maps (balance 10000, index 25) to exactly 3500. -/
theorem C8_vix_tier_allocation :
    (∀ b v : ℚ, vix_dynamic_allocation b v = b * tier_percentage v)
    ∧ (∀ b v w : ℚ, 0 < b → v ≤ w →
        vix_dynamic_allocation b v ≤ vix_dynamic_allocation b w)
    ∧ vix_dynamic_allocation 10000 25 = 3500 := by
  have hform : ∀ b v : ℚ, vix_dynamic_allocation b v = b * tier_percentage v := by
    intro b v
    unfold vix_dynamic_allocation tier_percentage
    by_cases h1 : v < 15
    · simp [h1]
    · have h1' : 15 ≤ v := not_lt.mp h1
      by_cases h2 : v < 20
      · simp [h1, h1', h2]
      · have h2' : 20 ≤ v := by linarith [not_lt.mp h2]
        by_cases h3 : v < 30
        · simp [h1, h1', h2, h2', h3]
        · have h3' : 30 ≤ v := by linarith [not_lt.mp h3]
          by_cases h4 : v < 40
          · simp [h1, h1', h2, h2', h3, h3', h4]
          · simp [h1, h2, h3, h4]
  refine ⟨hform, fun b v w hb hvw => ?_, ?_⟩
  · rw [hform, hform]
    exact mul_le_mul_of_nonneg_left (tier_percentage_mono hvw) hb.le
  · norm_num [vix_dynamic_allocation]

/-- Witness for C8: monotonicity applied at balance 10000 between index 15
and index 25. -/
theorem C8_vix_tier_allocation_witness :
    ((0 : ℚ) < 10000 ∧ (15 : ℚ) ≤ 25)
    ∧ vix_dynamic_allocation 10000 15 ≤ vix_dynamic_allocation 10000 25 :=
  ⟨⟨by norm_num, by norm_num⟩,
    C8_vix_tier_allocation.2.1 10000 15 25 (by norm_num) (by norm_num)⟩

/-- Claim C9: for `0 ≤ p < 1` the Kelly computation returns
`r * (dte/365) * (p/(1-p))`; at `p = 0` that value is exactly `0`; at
`p = 1` the division by `1 - p = 0` raises (`ZeroDivisionError` in the
Python code, the `none` outcome here) instead of returning a number. -/
theorem C9_kelly_fraction :
    (∀ r dte p : ℚ, 0 ≤ p → p < 1 →
        kelly_criterion_allocation r dte p
          = some (r * (dte / 365) * (p / (1 - p))))
    ∧ (∀ r dte : ℚ, kelly_criterion_allocation r dte 0 = some 0)
    ∧ (∀ r dte : ℚ, kelly_criterion_allocation r dte 1 = none) := by
  refine ⟨fun r dte p hp0 hp1 => ?_, fun r dte => ?_, fun r dte => ?_⟩
  · have hne : 1 - p ≠ 0 := fun h => by linarith
    simp [kelly_criterion_allocation, hne]
  · norm_num [kelly_criterion_allocation]
  · norm_num [kelly_criterion_allocation]

/-- Witness for C9 at the spec's concrete scenario (rate 1/20, 45 days,
probability 7/10). -/
theorem C9_kelly_fraction_witness :
    ((0 : ℚ) ≤ 7 / 10 ∧ (7 / 10 : ℚ) < 1)
    ∧ kelly_criterion_allocation (1 / 20) 45 (7 / 10)
        = some ((1 / 20) * (45 / 365) * ((7 / 10) / (1 - 7 / 10))) :=
  ⟨⟨by norm_num, by norm_num⟩,
    C9_kelly_fraction.1 (1 / 20) 45 (7 / 10) (by norm_num) (by norm_num)⟩

/-- Truncation toward zero agrees with the floor on non-negative values. -/
lemma pyInt_eq_floor {x : ℚ} (hx : 0 ≤ x) : pyInt x = ⌊x⌋ :=
  if_pos hx

/-- Claim C10: the recommended contract count uses the cheaper leg — when
`min call put > 0` it is `int(kelly_allocation / (min call put * 100))`
(which for a non-negative allocation is the floor of that quotient), and `0`
otherwise. -/
theorem C10_max_contracts_cheaper_leg :
    (∀ k c p : ℚ, 0 < min c p →
        max_contracts k c p = pyInt (k / (min c p * 100)))
    ∧ (∀ k c p : ℚ, ¬ 0 < min c p → max_contracts k c p = 0)
    ∧ (∀ k c p : ℚ, 0 ≤ k → 0 < min c p →
        max_contracts k c p = ⌊k / (min c p * 100)⌋) := by
  refine ⟨fun k c p h => ?_, fun k c p h => ?_, fun k c p hk h => ?_⟩
  · simp [max_contracts, h]
  · simp [max_contracts, h]
  · have hpos : (0 : ℚ) < min c p * 100 := by positivity
    have hq : 0 ≤ k / (min c p * 100) := div_nonneg hk hpos.le
    simp [max_contracts, h, pyInt_eq_floor hq]

/-- Witness for C10 at allocation 3500 with call 4, put 5: the cheaper leg
is the call and the count is `⌊3500 / 400⌋ = 8`. -/
theorem C10_max_contracts_cheaper_leg_witness :
    ((0 : ℚ) ≤ 3500 ∧ (0 : ℚ) < min (4 : ℚ) 5)
    ∧ max_contracts 3500 4 5 = ⌊(3500 : ℚ) / (min (4 : ℚ) 5 * 100)⌋ :=
  ⟨⟨by norm_num, by norm_num⟩,
    C10_max_contracts_cheaper_leg.2.2 3500 4 5 (by norm_num) (by norm_num)⟩
